import Mathlib

set_option autoImplicit false
set_option maxRecDepth 8000

namespace Quorabroker

/-! Shallow embedding of the quorabroker pipeline (src/main.py, src/config.py,
src/parser.py).  Effects of external libraries (the httpx transport, the
`os.urandom` entropy source, JSON decoding of queue messages, the wall clock,
the Mongo driver) enter the embedding as explicit parameters; everything the
repository itself computes is an executable Lean definition.  Machine floats
are idealised as rationals. -/

/-- Embeds `FetchTask` (src/main.py, `class FetchTask`): the unit of work with a
required url, an optional caller-supplied id and an optional priority. -/
structure FetchTask where
  url : String
  id : Option String := none
  priority : Option Int := none
deriving DecidableEq

/-- Embeds the `meta` dictionary built by `Fetcher.fetch`
(`\x7b"priority": task.priority\x7d`). -/
structure MetaInfo where
  priority : Option Int
deriving DecidableEq

/-- Embeds `PageDocument` (src/main.py, `class PageDocument`): the outcome of
processing one task.  Optional keys are `Option` fields. -/
structure PageDocument where
  _id : String
  url : String
  status_code : Option Int
  fetched_at : String
  latency_ms : ℚ
  content_length : Nat
  html : Option String
  error : Option String
  meta : MetaInfo
  question : Option String := none
  answer : Option String := none
deriving DecidableEq

/-- Model of the relevant parts of an httpx response: `resp.status_code`,
`resp.content` (raw bytes, each < 256) and `resp.text`. -/
structure HttpResponse where
  status_code : Int
  content : List Nat
  text : String
deriving DecidableEq

/-- Python's `round` to an integer: round half to even, idealised on ℚ. -/
def roundHalfEven (x : ℚ) : ℤ :=
  if x - ⌊x⌋ < 1 / 2 then ⌊x⌋
  else if 1 / 2 < x - ⌊x⌋ then ⌊x⌋ + 1
  else if ⌊x⌋ % 2 = 0 then ⌊x⌋ else ⌊x⌋ + 1

/-- Python's `round(x, 2)` used for `latency_ms` in `Fetcher.fetch`. -/
def pyRound2 (x : ℚ) : ℚ := (roundHalfEven (100 * x) : ℚ) / 100

/-- Lower-case hex digit for a nibble, as produced by `bytes.hex()`. -/
def hexDigitChar (n : Nat) : Char :=
  if n < 10 then Char.ofNat (48 + n) else Char.ofNat (87 + n)

/-- Character list of `bytes.hex()`: two lower-case hex digits per byte. -/
def hexEncodeChars : List Nat → List Char
  | [] => []
  | b :: bs => hexDigitChar (b / 16 % 16) :: hexDigitChar (b % 16) :: hexEncodeChars bs

/-- Embeds `os.urandom(8).hex()` applied to the given entropy bytes. -/
def hexEncode (bs : List Nat) : String := String.mk (hexEncodeChars bs)

/-- Embeds the `_id` expression of `Fetcher.fetch`:
`task.id or os.urandom(8).hex()`.  Python `or` treats both `None` and the
empty string as falsy, so an empty-string id is replaced by fresh hex. -/
def docId (task : FetchTask) (entropy : List Nat) : String :=
  match task.id with
  | some s => if s = "" then hexEncode entropy else s
  | none => hexEncode entropy

/-- Embeds `Fetcher.fetch` (src/main.py).  The transport outcome of
`self._client.get(...)` is the `outcome` parameter (`Except` = the call raised);
`elapsedMs` is the `perf_counter` difference in milliseconds, `timestamp` the
formatted `fetched_at` time and `entropy` the bytes behind `os.urandom(8)`.
Both branches of the source's try/except build a full `PageDocument`, so the
embedding is total: `fetch` never raises outward. -/
def Fetcher.fetch (task : FetchTask) (outcome : Except String HttpResponse)
    (elapsedMs : ℚ) (timestamp : String) (entropy : List Nat) : PageDocument :=
  match outcome with
  | .ok resp =>
      { _id := docId task entropy
        url := task.url
        status_code := some resp.status_code
        fetched_at := timestamp
        latency_ms := pyRound2 elapsedMs
        content_length := resp.content.length
        html := some resp.text
        error := none
        meta := ⟨task.priority⟩ }
  | .error exc =>
      { _id := docId task entropy
        url := task.url
        status_code := none
        fetched_at := timestamp
        latency_ms := pyRound2 elapsedMs
        content_length := 0
        html := none
        error := some exc
        meta := ⟨task.priority⟩ }

/-- Embeds `page_doc.update(extracted)` in `run.worker`: the extraction result
dictionary carries exactly the keys `question` and `answer`, so the update
rewrites those two fields and nothing else. -/
def applyExtract (d : PageDocument) (question answer : Option String) : PageDocument :=
  { d with question := question, answer := answer }

/-- Claim C2's invariant: `error` set ⇔ `status_code` absent ⇔ `html` absent. -/
def mutualExclusive (d : PageDocument) : Prop :=
  (d.error ≠ none ↔ d.status_code = none) ∧ (d.error ≠ none ↔ d.html = none)

/-- Embeds `Config` (src/main.py): defaults of the pydantic model. -/
structure Config where
  kafka_bootstrap_servers : String := "localhost:9092"
  kafka_topic : String := "quora.fetch.requests"
  mongo_uri : Option String := none
  mongo_db : String := "quorabroker"
  mongo_collection : String := "pages"
  http_timeout_seconds : ℚ := 15
  max_concurrent_fetches : Int := 10
  user_agent : String := "quorabroker/0.1"
  log_level : String := "INFO"
deriving DecidableEq

/-- Environment values seen by `Config.load` after the `float()`/`int()`
conversions; `none` models an unset (or empty, hence falsy) variable. -/
structure ConfigEnv where
  kafka_bootstrap_servers : Option String := none
  kafka_topic : Option String := none
  mongo_uri : Option String := none
  mongo_db : Option String := none
  mongo_collection : Option String := none
  http_timeout_seconds : Option ℚ := none
  max_concurrent_fetches : Option Int := none
  user_agent : Option String := none
  log_level : Option String := none

/-- Embeds `Config.load` (src/main.py): every field falls back to the class
default; no field is range-checked. -/
def Config.load (env : ConfigEnv) : Config :=
  { kafka_bootstrap_servers := env.kafka_bootstrap_servers.getD "localhost:9092"
    kafka_topic := env.kafka_topic.getD "quora.fetch.requests"
    mongo_uri := env.mongo_uri
    mongo_db := env.mongo_db.getD "quorabroker"
    mongo_collection := env.mongo_collection.getD "pages"
    http_timeout_seconds := env.http_timeout_seconds.getD 15
    max_concurrent_fetches := env.max_concurrent_fetches.getD 10
    user_agent := env.user_agent.getD "quorabroker/0.1"
    log_level := (env.log_level.getD "INFO").toUpper }

/-- Model of the httpx client held by `Fetcher.__init__`: it is constructed
directly from the loaded config, with no further validation of the timeout. -/
structure FetcherClient where
  timeout : ℚ
  userAgent : String
deriving DecidableEq

/-- Embeds `Fetcher.__init__` (src/main.py): the shared client takes
`cfg.http_timeout_seconds` and `cfg.user_agent` as they are. -/
def Fetcher.make (cfg : Config) : FetcherClient :=
  { timeout := cfg.http_timeout_seconds, userAgent := cfg.user_agent }

/-- Environment seen by `Settings.load` (src/config.py), restricted to the
field claim C9 is about. -/
structure SettingsEnv where
  http_timeout_seconds : Option ℚ := none

/-- Pydantic constraint on `Settings.http_timeout_seconds`
(src/config.py: `Field(default=20.0, gt=0, le=300)`). -/
def httpTimeoutValid (t : ℚ) : Bool := decide (0 < t) && decide (t ≤ 300)

/-- Embeds the `http_timeout_seconds` path of `Settings.load` (src/config.py):
pydantic validates the constructed value and raises a validation error when
the `gt=0, le=300` bounds fail. -/
def Settings.loadHttpTimeout (env : SettingsEnv) : Except String ℚ :=
  if httpTimeoutValid (env.http_timeout_seconds.getD 20) then
    .ok (env.http_timeout_seconds.getD 20)
  else .error "http_timeout_seconds failed validation (gt=0, le=300)"

/-- Embeds the `MongoStore` state after `__init__` (src/main.py): the
collection handle exists only when `cfg.mongo_uri` is set and the motor
driver is importable; otherwise persistence is disabled. -/
structure MongoStore where
  collection : Option (String × String)
deriving DecidableEq

/-- Embeds `MongoStore.__init__` (src/main.py). -/
def MongoStore.make (cfg : Config) (motorAvailable : Bool) : MongoStore :=
  if cfg.mongo_uri.isSome && motorAvailable then
    ⟨some (cfg.mongo_db, cfg.mongo_collection)⟩
  else ⟨none⟩

/-- Observable store side effects of `save_page`. -/
inductive StoreEffect where
  | insertOne (db coll : String) (doc : PageDocument)
deriving DecidableEq

/-- Embeds `MongoStore.save_page` (src/main.py): with no collection handle it
returns immediately (no effect, no error); with a handle it performs one
insert whose outcome (`insertOutcome`, supplied by the external driver) is
surfaced to the caller. -/
def MongoStore.save_page (st : MongoStore) (doc : PageDocument)
    (insertOutcome : Except String Unit) : Except String Unit × List StoreEffect :=
  match st.collection with
  | none => (.ok (), [])
  | some (db, coll) => (insertOutcome, [.insertOne db coll doc])

/-- The synthetic url list of `KafkaConsumerWrapper.get_tasks` (src/main.py,
degraded no-broker mode). -/
def sampleUrls : List String := ["https://example.org", "https://www.python.org"]

/-- Embeds the degraded branch of `get_tasks`: one `FetchTask(url=u)` per
sample url, then the generator returns. -/
def degradedTasks : List FetchTask := sampleUrls.map (fun u => { url := u })

/-- Embeds one iteration body of the live branch of `get_tasks`: decode the
message; yield the task on success, log and continue on failure.  Both
branches continue the loop, which has no exit of its own (`while True`). -/
inductive LiveStatus where
  | running (next : Nat)
  | halted
deriving DecidableEq

/-- One step of the live consumption loop over the message stream: the loop
never transitions to `halted` because the loop body continues after both the
yield and the error-log branch. -/
def liveLoopStep {Msg : Type} (decode : Msg → Except String FetchTask)
    (stream : Nat → Msg) : LiveStatus → LiveStatus × List FetchTask
  | .running i =>
      (.running (i + 1),
        match decode (stream i) with
        | .ok t => [t]
        | .error _ => [])
  | .halted => (.halted, [])

/-- The loop status after `n` iterations of the live branch, started at the
first message. -/
def liveStatusAfter {Msg : Type} (decode : Msg → Except String FetchTask)
    (stream : Nat → Msg) : Nat → LiveStatus
  | 0 => .running 0
  | n + 1 => (liveLoopStep decode stream (liveStatusAfter decode stream n)).1

/-- Embeds the live branch of `get_tasks` over a finite batch of messages:
`json.loads` + `FetchTask(**payload)` is the `decode` parameter; a failing
message is logged (second component) and skipped, a succeeding one is
yielded (first component), and the loop continues either way. -/
def consumeLive {Msg : Type} (decode : Msg → Except String FetchTask) :
    List Msg → List FetchTask × List String
  | [] => ([], [])
  | m :: ms =>
    match decode m with
    | .ok t => ((consumeLive decode ms).1.cons t, (consumeLive decode ms).2)
    | .error e => ((consumeLive decode ms).1, (consumeLive decode ms).2.cons e)

/-- Shallow model of pydantic's `HttpUrl`: an absolute http(s) url. -/
def validUrl (u : String) : Bool := u.startsWith "http://" || u.startsWith "https://"

/-- A decoded JSON object for a queue message, before model validation. -/
structure RawPayload where
  url : Option String := none
  id : Option String := none
  priority : Option Int := none
deriving DecidableEq

/-- Embeds `FetchTask(**payload)` validation: url required and absolute,
priority (when present) within `ge=0, le=100`. -/
def validateFetchTask (p : RawPayload) : Except String FetchTask :=
  match p.url with
  | none => .error "url field required"
  | some u =>
    if validUrl u then
      match p.priority with
      | none => .ok { url := u, id := p.id }
      | some pr =>
        if 0 ≤ pr && pr ≤ 100 then .ok { url := u, id := p.id, priority := some pr }
        else .error "priority out of range"
    else .error "url invalid"

/-- Full decode of one queue message: `none` models a payload that
`msg.value.decode` / `json.loads` rejects, `some p` a decoded JSON object
that is then validated against the `FetchTask` model. -/
def decodeMessage (m : Option RawPayload) : Except String FetchTask :=
  match m with
  | none => .error "json decode failed"
  | some p => validateFetchTask p

/-- Observable events of `run` and its `worker` loop (src/main.py): per-task
processing steps and the four stage close calls of the `finally` block. -/
inductive Event where
  | pull (i : Nat)
  | fetchStart (i : Nat)
  | fetchDone (i : Nat)
  | extractRun (i : Nat)
  | persist (i : Nat)
  | logProcessed (i : Nat)
  | closeSource
  | closeFetcher
  | closeStore
  | closeBrowser
deriving DecidableEq

/-- The event block of one `worker` iteration for task `i`: pull the task from
the consumer, await the fetch, run the (conditional) browser extraction, await
`save_page`, log `task_processed`.  The awaits are sequential in the source:
nothing of task `i+1` happens before this block ends. -/
def taskBlock (ext : Bool) (i : Nat) : List Event :=
  [.pull i, .fetchStart i, .fetchDone i] ++ (if ext then [.extractRun i] else [])
    ++ [.persist i, .logProcessed i]

/-- Trace of the `worker` loop over the first `n` tasks when no shutdown
signal arrives: one sequential block per task. -/
def blocksUpTo (ext : Nat → Bool) : Nat → List Event
  | 0 => []
  | n + 1 => blocksUpTo ext n ++ taskBlock (ext n) n

/-- The `worker` trace as a function of the loaded config.  The source's
`worker` consults no semaphore and never reads `cfg.max_concurrent_fetches`;
the trace is the plain sequential block concatenation for every config. -/
def workerTraceCfg (_cfg : Config) (ext : Nat → Bool) (n : Nat) : List Event :=
  blocksUpTo ext n

/-- Occupancy counter step: a task occupies the fetch→extract→persist
sequence from its pull until its completion log. -/
def occStep (c : Nat) : Event → Nat
  | .pull _ => c + 1
  | .logProcessed _ => c - 1
  | _ => c

/-- Occupancy after each successive event of a trace. -/
def occList : Nat → List Event → List Nat
  | _, [] => []
  | c, e :: es => occStep c e :: occList (occStep c e) es

/-- Occupancy after a whole trace. -/
def occFold : Nat → List Event → Nat
  | c, [] => c
  | c, e :: es => occFold (occStep c e) es

/-- Trace of the `worker` loop with a shutdown signal: `sigAt` is the number
of completed iterations at which `shutdown_event` becomes observable
(`sigAt = 0`: already set before the first pull).  The source checks the
event only at the bottom of the loop body, so iteration `i` runs whenever the
check after iteration `i - 1` saw the event unset; the first iteration runs
unconditionally whenever a task is available. -/
def workerSigAux (ext : Nat → Bool) (sigAt : Nat) : Nat → Nat → List Event
  | _, 0 => []
  | i, n + 1 =>
    taskBlock (ext i) i ++
      (if sigAt ≤ i + 1 then [] else workerSigAux ext sigAt (i + 1) n)

/-- The signalled `worker` trace over `n` available tasks. -/
def workerSig (ext : Nat → Bool) (sigAt n : Nat) : List Event :=
  workerSigAux ext sigAt 0 n

/-- Concatenation of the blocks for tasks `start, start+1, ..., start+k-1`. -/
def blockRange (ext : Nat → Bool) : Nat → Nat → List Event
  | _, 0 => []
  | i, k + 1 => taskBlock (ext i) i ++ blockRange ext (i + 1) k

/-- Trace of `run` (src/main.py): the worker followed by the `finally` block,
which closes the consumer, the fetcher, the store and the browser worker in
exactly that source order. -/
def runTrace (ext : Nat → Bool) (sigAt n : Nat) : List Event :=
  workerSig ext sigAt n ++ [.closeSource, .closeFetcher, .closeStore, .closeBrowser]

/-- HTML forest (sibling list fused into the inductive so that every traversal
below is plain structural recursion): a text node or an element with tag,
class list and children, each followed by its right siblings. -/
inductive HtmlForest where
  | nil
  | text (s : String) (rest : HtmlForest)
  | elem (tag : String) (classes : List String) (children : HtmlForest) (rest : HtmlForest)
deriving DecidableEq

/-- An element as returned by `select_one`: tag, classes and children. -/
structure HtmlElem where
  tag : String
  classes : List String
  children : HtmlForest
deriving DecidableEq

/-- The double-quote character (used in attribute syntax). -/
def quoteChar : Char := Char.ofNat 34

/-- Whitespace recognised inside tags and by stripping. -/
def isSpaceChar (c : Char) : Bool := c = ' ' || c = '\n' || c = '\t' || c = '\r'

/-- The character sequence `class="` that introduces a class attribute. -/
def classAttrMarker : List Char := "class=\"".data

/-- Scans the inside of a start tag for `class="..."` and returns the raw
attribute value. -/
def findClassValue : List Char → Option (List Char)
  | [] => none
  | c :: cs =>
    if (c :: cs).take 7 = classAttrMarker then
      some (((c :: cs).drop 7).takeWhile (fun d => d ≠ quoteChar))
    else findClassValue cs

/-- Splits a class attribute value on whitespace, dropping empty pieces, as
the HTML class attribute is interpreted. -/
def splitClassesAux (acc : List Char) : List Char → List String
  | [] => if acc.isEmpty then [] else [String.mk acc.reverse]
  | c :: cs =>
    if isSpaceChar c then
      if acc.isEmpty then splitClassesAux [] cs
      else String.mk acc.reverse :: splitClassesAux [] cs
    else splitClassesAux (c :: acc) cs

/-- The class list of a start tag's contents. -/
def tagClasses (tagContent : List Char) : List String :=
  match findClassValue tagContent with
  | some v => splitClassesAux [] v
  | none => []

/-- Recursive-descent parse of a character stream into an `HtmlForest`,
mirroring how `html.parser` builds the soup tree for the markup subset the
extraction selectors operate on: start tags with attributes, matching end
tags, and text.  `fuel` bounds the recursion depth; every nested call
consumes at least one character, so `length + 2` fuel always suffices. -/
def parseNodesAux : Nat → List Char → HtmlForest × List Char
  | 0, cs => (.nil, cs)
  | _ + 1, [] => (.nil, [])
  | _ + 1, '<' :: '/' :: cs => (.nil, (cs.dropWhile (fun d => d ≠ '>')).drop 1)
  | fuel + 1, '<' :: cs =>
    let tagContent := cs.takeWhile (fun d => d ≠ '>')
    let afterTag := (cs.dropWhile (fun d => d ≠ '>')).drop 1
    let tagName := String.mk (tagContent.takeWhile (fun d => !isSpaceChar d))
    let children := parseNodesAux fuel afterTag
    let siblings := parseNodesAux fuel children.2
    (.elem tagName (tagClasses tagContent) children.1 siblings.1, siblings.2)
  | fuel + 1, c :: cs =>
    let txt := (c :: cs).takeWhile (fun d => d ≠ '<')
    let after := (c :: cs).dropWhile (fun d => d ≠ '<')
    let siblings := parseNodesAux fuel after
    (.text (String.mk txt) siblings.1, siblings.2)

/-- Embeds `BeautifulSoup(html, "html.parser")` for the supported subset. -/
def parseHtml (s : String) : HtmlForest :=
  (parseNodesAux (s.length + 2) s.data).1

/-- Whether an element matches a compound selector `tag.c1.c2...`: the tag
name is equal and every selector class appears in the element's class list. -/
def selMatches (tag : String) (classes : List String) (t : String)
    (cls : List String) : Bool :=
  t = tag && classes.all (fun c => cls.contains c)

/-- Embeds `soup.select_one`: first matching element in document order
(an element is visited before its descendants, descendants before right
siblings). -/
def selectForest (tag : String) (classes : List String) : HtmlForest → Option HtmlElem
  | .nil => none
  | .text _ rest => selectForest tag classes rest
  | .elem t cls ch rest =>
    if selMatches tag classes t cls then some ⟨t, cls, ch⟩
    else
      match selectForest tag classes ch with
      | some r => some r
      | none => selectForest tag classes rest

/-- All text fragments below a forest, in document order. -/
def textPieces : HtmlForest → List String
  | .nil => []
  | .text s rest => s :: textPieces rest
  | .elem _ _ ch rest => textPieces ch ++ textPieces rest

/-- Removes leading and trailing whitespace from a character list. -/
def trimChars (l : List Char) : List Char :=
  ((l.dropWhile isSpaceChar).reverse.dropWhile isSpaceChar).reverse

/-- String strip, as Python's `str.strip` on the supported whitespace set. -/
def stripString (s : String) : String := String.mk (trimChars s.data)

/-- Strips each text fragment and drops the all-whitespace ones, as
`get_text(..., strip=True)` does. -/
def stripPieces (ps : List String) : List String :=
  (ps.map stripString).filter (fun s => s ≠ "")

/-- Joins strings with a separator. -/
def joinSep (sep : String) : List String → String
  | [] => ""
  | [s] => s
  | s :: t :: rest => s ++ sep ++ joinSep sep (t :: rest)

/-- Embeds `el.get_text(sep, strip=True)` on a selected element. -/
def elemText (sep : String) (el : HtmlElem) : String :=
  joinSep sep (stripPieces (textPieces el.children))

/-- Tag of `QUESTION_SELECTOR = "div.puppeteer_test_question_title"`
(src/parser.py). -/
def questionSelTag : String := "div"

/-- Classes of `QUESTION_SELECTOR` (src/parser.py). -/
def questionSelClasses : List String := ["puppeteer_test_question_title"]

/-- Tag of `ANSWER_SELECTOR` (src/parser.py). -/
def answerSelTag : String := "p"

/-- Classes of `ANSWER_SELECTOR =
"p.q-text.qu-display--block.qu-wordBreak--break-word.qu-textAlign--start"`. -/
def answerSelClasses : List String :=
  ["q-text", "qu-display--block", "qu-wordBreak--break-word", "qu-textAlign--start"]

/-- The result dictionary of `extract_question_answer`. -/
structure QAResult where
  question : Option String
  answer : Option String
deriving DecidableEq

/-- Embeds `extract_question_answer` (src/parser.py): parse the HTML, apply
`select_one` with each selector, and take the stripped text of a match
(`get_text(strip=True)` for the question, `get_text("\n", strip=True)` for
the answer); a selector with no match yields `none` for its field. -/
def extract_question_answer (html : String) : QAResult :=
  { question :=
      (selectForest questionSelTag questionSelClasses (parseHtml html)).map
        (fun el => elemText "" el)
    answer :=
      (selectForest answerSelTag answerSelClasses (parseHtml html)).map
        (fun el => elemText "\n" el) }

/-- The concrete scenario input of claim C8. -/
def c8InputHtml : String :=
  "<div class=\"puppeteer_test_question_title\">What is Python?</div><p class=\"q-text qu-display--block qu-wordBreak--break-word qu-textAlign--start\">Python is a programming language.</p>"

/-- Lower-case hex digit test for claim C10. -/
def isHexLower (c : Char) : Bool := "0123456789abcdef".data.contains c

/-! Helper lemmas. -/

theorem roundHalfEven_nonneg (x : ℚ) (h : 0 ≤ x) : 0 ≤ roundHalfEven x := by
  have hf : (0 : ℤ) ≤ ⌊x⌋ := Int.floor_nonneg.mpr h
  unfold roundHalfEven
  split_ifs <;> omega

theorem pyRound2_nonneg (x : ℚ) (h : 0 ≤ x) : 0 ≤ pyRound2 x := by
  have h1 : (0 : ℤ) ≤ roundHalfEven (100 * x) :=
    roundHalfEven_nonneg _ (by positivity)
  unfold pyRound2
  have h2 : (0 : ℚ) ≤ (roundHalfEven (100 * x) : ℚ) := by exact_mod_cast h1
  positivity

theorem hexEncodeChars_length (bs : List Nat) :
    (hexEncodeChars bs).length = 2 * bs.length := by
  induction bs with
  | nil => rfl
  | cons b bs ih => simp [hexEncodeChars, ih]; ring

theorem hexEncode_length (bs : List Nat) : (hexEncode bs).length = 2 * bs.length :=
  hexEncodeChars_length bs

theorem hexDigitChar_isHexLower (n : Nat) (h : n < 16) :
    isHexLower (hexDigitChar n) = true := by
  revert h
  revert n
  decide

theorem hexEncodeChars_isHexLower (bs : List Nat) :
    ∀ c ∈ hexEncodeChars bs, isHexLower c = true := by
  induction bs with
  | nil => intro c hc; cases hc
  | cons b bs ih =>
    intro c hc
    rcases hc with _ | ⟨_, hc⟩
    · exact hexDigitChar_isHexLower _ (Nat.mod_lt _ (by norm_num))
    · rcases hc with _ | ⟨_, hc⟩
      · exact hexDigitChar_isHexLower _ (Nat.mod_lt _ (by norm_num))
      · exact ih c hc

/-! Claim theorems. -/

/-- C1: `fetch(task)` never raises outward (the embedding is total on every
transport outcome); a raised transport, timeout or protocol error yields a
record with `error` set to the failure description, `status_code` absent,
`html` absent, and nonnegative `latency_ms`; a successful response yields a
record with `status_code`, `content_length` (byte length of the body) and
`html` populated and `error` absent. -/
theorem c1_fetch_error_contract (task : FetchTask) (outcome : Except String HttpResponse)
    (elapsedMs : ℚ) (timestamp : String) (entropy : List Nat) (h : 0 ≤ elapsedMs) :
    (∀ exc, outcome = .error exc →
      (Fetcher.fetch task outcome elapsedMs timestamp entropy).error = some exc ∧
      (Fetcher.fetch task outcome elapsedMs timestamp entropy).status_code = none ∧
      (Fetcher.fetch task outcome elapsedMs timestamp entropy).html = none ∧
      0 ≤ (Fetcher.fetch task outcome elapsedMs timestamp entropy).latency_ms) ∧
    (∀ resp, outcome = .ok resp →
      (Fetcher.fetch task outcome elapsedMs timestamp entropy).status_code
          = some resp.status_code ∧
      (Fetcher.fetch task outcome elapsedMs timestamp entropy).content_length
          = resp.content.length ∧
      (Fetcher.fetch task outcome elapsedMs timestamp entropy).html = some resp.text ∧
      (Fetcher.fetch task outcome elapsedMs timestamp entropy).error = none) := by
  constructor
  · rintro exc rfl
    exact ⟨rfl, rfl, rfl, pyRound2_nonneg elapsedMs h⟩
  · rintro resp rfl
    exact ⟨rfl, rfl, rfl, rfl⟩

/-- Witness for C1 at a concrete failing fetch. -/
theorem c1_fetch_error_contract_witness :
    (0 : ℚ) ≤ 5 ∧
    ((Fetcher.fetch ⟨"https://unreachable.invalid", none, none⟩
        (.error "connect timeout") 5 "2024-01-01T00:00:00Z" [1, 2, 3, 4, 5, 6, 7, 8]).error
          = some "connect timeout" ∧
      (Fetcher.fetch ⟨"https://unreachable.invalid", none, none⟩
        (.error "connect timeout") 5 "2024-01-01T00:00:00Z" [1, 2, 3, 4, 5, 6, 7, 8]).status_code
          = none ∧
      (Fetcher.fetch ⟨"https://unreachable.invalid", none, none⟩
        (.error "connect timeout") 5 "2024-01-01T00:00:00Z" [1, 2, 3, 4, 5, 6, 7, 8]).html
          = none ∧
      0 ≤ (Fetcher.fetch ⟨"https://unreachable.invalid", none, none⟩
        (.error "connect timeout") 5 "2024-01-01T00:00:00Z" [1, 2, 3, 4, 5, 6, 7, 8]).latency_ms) :=
  ⟨by norm_num,
    (c1_fetch_error_contract ⟨"https://unreachable.invalid", none, none⟩
      (.error "connect timeout") 5 "2024-01-01T00:00:00Z" [1, 2, 3, 4, 5, 6, 7, 8]
      (by norm_num)).1 "connect timeout" rfl⟩

/-- C2: for every record produced by `Fetcher.fetch`, and also after the
worker merges the extraction fields into it, `error` set, `status_code`
absent and `html` absent are pairwise equivalent. -/
theorem c2_mutual_exclusivity (task : FetchTask) (outcome : Except String HttpResponse)
    (elapsedMs : ℚ) (timestamp : String) (entropy : List Nat)
    (question answer : Option String) :
    mutualExclusive (Fetcher.fetch task outcome elapsedMs timestamp entropy) ∧
    mutualExclusive
      (applyExtract (Fetcher.fetch task outcome elapsedMs timestamp entropy)
        question answer) := by
  cases outcome <;>
    simp [Fetcher.fetch, applyExtract, mutualExclusive]

/-- Witness for C2 on concrete success and failure records. -/
theorem c2_mutual_exclusivity_witness :
    mutualExclusive
      (Fetcher.fetch ⟨"https://example.org", none, none⟩
        (.ok ⟨200, [104, 105], "hi"⟩) 12 "2024-01-01T00:00:00Z" []) ∧
    mutualExclusive
      (applyExtract
        (Fetcher.fetch ⟨"https://example.org", none, none⟩
          (.ok ⟨200, [104, 105], "hi"⟩) 12 "2024-01-01T00:00:00Z" [])
        (some "Q") (some "A")) :=
  c2_mutual_exclusivity ⟨"https://example.org", none, none⟩
    (.ok ⟨200, [104, 105], "hi"⟩) 12 "2024-01-01T00:00:00Z" [] (some "Q") (some "A")

/-- C7: with no durable store configured (`mongo_uri` unset), `save_page` is a
no-op that returns without error and performs no insert, for every record,
every insert outcome the driver could have produced, and whether or not the
motor driver is importable. -/
theorem c7_save_noop (env : ConfigEnv) (h : env.mongo_uri = none) :
    ∀ (motorAvailable : Bool) (doc : PageDocument) (insertOutcome : Except String Unit),
      MongoStore.save_page (MongoStore.make (Config.load env) motorAvailable) doc
        insertOutcome = (.ok (), []) := by
  intro motorAvailable doc insertOutcome
  simp [MongoStore.make, MongoStore.save_page, Config.load, h]

/-- Witness for C7 on a concrete record with a would-be failing insert. -/
theorem c7_save_noop_witness :
    MongoStore.save_page (MongoStore.make (Config.load {}) true)
      ⟨"id1", "https://example.org", some 200, "2024-01-01T00:00:00Z", 12, 2,
        some "hi", none, ⟨none⟩, none, none⟩
      (.error "duplicate key") = (.ok (), []) :=
  c7_save_noop {} rfl true
    ⟨"id1", "https://example.org", some 200, "2024-01-01T00:00:00Z", 12, 2,
      some "hi", none, ⟨none⟩, none, none⟩
    (.error "duplicate key")

/-- C10: a present-but-empty caller id is not preserved: the record's `_id`
is the freshly generated identifier (16 lower-case hex characters for the
8 entropy bytes of `os.urandom(8)`), identical to the id-absent case; only a
non-empty caller id is copied into the record. -/
theorem c10_empty_id_regenerated (url : String) (pr : Option Int) (entropy : List Nat)
    (s : String) (outcome : Except String HttpResponse) (elapsedMs : ℚ)
    (timestamp : String) :
    docId { url := url, id := some "", priority := pr } entropy = hexEncode entropy ∧
    docId { url := url, id := some "", priority := pr } entropy
      = docId { url := url, id := none, priority := pr } entropy ∧
    (Fetcher.fetch { url := url, id := some "", priority := pr } outcome elapsedMs
        timestamp entropy)._id = hexEncode entropy ∧
    (entropy.length = 8 → (hexEncode entropy).length = 16) ∧
    (∀ c ∈ (hexEncode entropy).data, isHexLower c = true) ∧
    (s ≠ "" →
      (Fetcher.fetch { url := url, id := some s, priority := pr } outcome elapsedMs
          timestamp entropy)._id = s) := by
  refine ⟨rfl, rfl, ?_, ?_, ?_, ?_⟩
  · cases outcome <;> rfl
  · intro h8
    rw [hexEncode_length, h8]
  · exact hexEncodeChars_isHexLower entropy
  · intro hs
    cases outcome <;> simp [Fetcher.fetch, docId, hs]

/-- Witness for C10 at concrete entropy bytes and a concrete non-empty id. -/
theorem c10_empty_id_regenerated_witness :
    ([0, 1, 2, 3, 4, 5, 6, 7] : List Nat).length = 8 ∧
    (hexEncode [0, 1, 2, 3, 4, 5, 6, 7]).length = 16 ∧
    ("abc" : String) ≠ "" ∧
    (Fetcher.fetch { url := "https://www.quora.com/q", id := some "abc" }
        (.error "boom") 1 "2024-01-01T00:00:00Z" [0, 1, 2, 3, 4, 5, 6, 7])._id = "abc" :=
  ⟨rfl,
    (c10_empty_id_regenerated "https://www.quora.com/q" none [0, 1, 2, 3, 4, 5, 6, 7]
      "abc" (.error "boom") 1 "2024-01-01T00:00:00Z").2.2.2.1 rfl,
    by decide,
    (c10_empty_id_regenerated "https://www.quora.com/q" none [0, 1, 2, 3, 4, 5, 6, 7]
      "abc" (.error "boom") 1 "2024-01-01T00:00:00Z").2.2.2.2.2 (by decide)⟩

theorem consumeLive_append {Msg : Type} (decode : Msg → Except String FetchTask)
    (l1 l2 : List Msg) :
    consumeLive decode (l1 ++ l2)
      = ((consumeLive decode l1).1 ++ (consumeLive decode l2).1,
         (consumeLive decode l1).2 ++ (consumeLive decode l2).2) := by
  induction l1 with
  | nil => simp [consumeLive]
  | cons m ms ih =>
    cases hd : decode m <;> simp [consumeLive, hd, ih]

/-- C5: a queue message whose payload fails deserialization or model
validation is logged and skipped without terminating the task sequence: the
yielded tasks of the whole batch are exactly those of the surrounding valid
messages, the failure description is logged, and every task yielded by a
later message is still yielded. -/
theorem c5_malformed_skipped {Msg : Type} (decode : Msg → Except String FetchTask)
    (pre post : List Msg) (bad : Msg) (e : String) (h : decode bad = .error e) :
    (consumeLive decode (pre ++ bad :: post)).1
      = (consumeLive decode pre).1 ++ (consumeLive decode post).1 ∧
    e ∈ (consumeLive decode (pre ++ bad :: post)).2 ∧
    (∀ t : FetchTask, t ∈ (consumeLive decode post).1 →
      t ∈ (consumeLive decode (pre ++ bad :: post)).1) := by
  have hbad : consumeLive decode (bad :: post)
      = ((consumeLive decode post).1, e :: (consumeLive decode post).2) := by
    simp [consumeLive, h]
  refine ⟨?_, ?_, ?_⟩
  · rw [consumeLive_append, hbad]
  · rw [consumeLive_append, hbad]
    simp
  · intro t ht
    rw [consumeLive_append, hbad]
    exact List.mem_append_right _ ht

/-- Witness for C5: a malformed payload between two valid ones, using the
concrete message decoding (JSON decode plus `FetchTask` validation). -/
theorem c5_malformed_skipped_witness :
    decodeMessage none = .error "json decode failed" ∧
    (consumeLive decodeMessage
        [some { url := some "https://a.example" }, none,
          some { url := some "https://b.example" }]).1
      = (consumeLive decodeMessage [some { url := some "https://a.example" }]).1
        ++ (consumeLive decodeMessage [some { url := some "https://b.example" }]).1 ∧
    "json decode failed" ∈
      (consumeLive decodeMessage
        [some { url := some "https://a.example" }, none,
          some { url := some "https://b.example" }]).2 :=
  ⟨rfl,
    (c5_malformed_skipped decodeMessage [some { url := some "https://a.example" }]
      [some { url := some "https://b.example" }] none "json decode failed" rfl).1,
    (c5_malformed_skipped decodeMessage [some { url := some "https://a.example" }]
      [some { url := some "https://b.example" }] none "json decode failed" rfl).2.1⟩

/-- C6: in degraded (no-broker) mode the task sequence is bounded: exactly
the two synthetic tasks for https://example.org and https://www.python.org,
in that order, and nothing else; with a live queue the consumption loop has
no terminating state of its own — after any number of iterations it is still
running, for every decode function and every message stream. -/
theorem c6_degraded_bounded_live_unbounded :
    degradedTasks = [⟨"https://example.org", none, none⟩,
      ⟨"https://www.python.org", none, none⟩] ∧
    ∀ (Msg : Type) (decode : Msg → Except String FetchTask) (stream : Nat → Msg)
      (n : Nat), liveStatusAfter decode stream n = .running n := by
  refine ⟨rfl, ?_⟩
  intro Msg decode stream n
  induction n with
  | zero => rfl
  | succ n ih => simp [liveStatusAfter, ih, liveLoopStep]

/-- Witness for C6 applying the live-loop statement to a concrete stream. -/
theorem c6_degraded_bounded_live_unbounded_witness :
    liveStatusAfter decodeMessage (fun _ => (none : Option RawPayload)) 5
      = .running 5 :=
  c6_degraded_bounded_live_unbounded.2 (Option RawPayload) decodeMessage
    (fun _ => none) 5

/-- C9 counterexample: the claim says an out-of-range timeout is rejected at
settings-load time and never reaches the Fetch Stage.  But the Fetch Stage is
built from `Config` (src/main.py), whose `load` performs no range check: with
`HTTP_TIMEOUT_SECONDS=1000` the pipeline's config loads successfully and the
shared httpx client is constructed with timeout 1000 > 300. -/
theorem c9_timeout_counterexample :
    (Config.load { http_timeout_seconds := some 1000 }).http_timeout_seconds = 1000 ∧
    (Fetcher.make (Config.load { http_timeout_seconds := some 1000 })).timeout = 1000 ∧
    ¬ ((1000 : ℚ) ≤ 300) :=
  ⟨rfl, rfl, by norm_num⟩

/-- C9 (amended): `Settings` in src/config.py does enforce `0 < t ≤ 300` — its
load accepts a configured timeout exactly when the bound holds — but the
pipeline's own `Config` in src/main.py performs no validation: it accepts any
timeout value and passes it directly to the Fetch Stage's client. -/
theorem c9_timeout_validation (t : ℚ) :
    ((Settings.loadHttpTimeout { http_timeout_seconds := some t }).isOk = true
      ↔ (0 < t ∧ t ≤ 300)) ∧
    (Config.load { http_timeout_seconds := some t }).http_timeout_seconds = t ∧
    (Fetcher.make (Config.load { http_timeout_seconds := some t })).timeout = t := by
  have hval : (httpTimeoutValid t = true) ↔ (0 < t ∧ t ≤ 300) := by
    simp [httpTimeoutValid]
  refine ⟨?_, rfl, rfl⟩
  simp only [Settings.loadHttpTimeout, Option.getD_some]
  by_cases h : httpTimeoutValid t = true
  · rw [if_pos h]
    exact ⟨fun _ => hval.mp h, fun _ => rfl⟩
  · rw [if_neg h]
    refine ⟨fun hk => absurd hk (by decide), fun hk => absurd (hval.mpr hk) h⟩

/-- Witness for C9 at the in-range default timeout. -/
theorem c9_timeout_validation_witness :
    (Settings.loadHttpTimeout { http_timeout_seconds := some 20 }).isOk = true ∧
    (Fetcher.make (Config.load { http_timeout_seconds := some 20 })).timeout = 20 :=
  ⟨(c9_timeout_validation 20).1.mpr (by norm_num), (c9_timeout_validation 20).2.2⟩

theorem occFold_append (c : Nat) (l1 l2 : List Event) :
    occFold c (l1 ++ l2) = occFold (occFold c l1) l2 := by
  induction l1 generalizing c with
  | nil => rfl
  | cons e es ih => simp [occFold, ih]

theorem occList_append (c : Nat) (l1 l2 : List Event) :
    occList c (l1 ++ l2) = occList c l1 ++ occList (occFold c l1) l2 := by
  induction l1 generalizing c with
  | nil => rfl
  | cons e es ih => simp [occList, occFold, ih]

theorem occFold_taskBlock (e : Bool) (i : Nat) : occFold 0 (taskBlock e i) = 0 := by
  cases e <;> rfl

theorem occList_taskBlock_le_one (e : Bool) (i : Nat) :
    ∀ c ∈ occList 0 (taskBlock e i), c ≤ 1 := by
  cases e <;> intro c hc <;>
    simp [taskBlock, occList, occStep] at hc <;> omega

theorem occ_blocksUpTo (ext : Nat → Bool) (n : Nat) :
    occFold 0 (blocksUpTo ext n) = 0 ∧
    ∀ c ∈ occList 0 (blocksUpTo ext n), c ≤ 1 := by
  induction n with
  | zero => exact ⟨rfl, by intro c hc; cases hc⟩
  | succ n ih =>
    obtain ⟨h0, hb⟩ := ih
    constructor
    · rw [blocksUpTo, occFold_append, h0, occFold_taskBlock]
    · intro c hc
      rw [blocksUpTo, occList_append, h0] at hc
      rcases List.mem_append.mp hc with hc | hc
      · exact hb c hc
      · exact occList_taskBlock_le_one (ext n) n c hc

theorem pull_mem_taskBlock (e : Bool) (i j : Nat) :
    Event.pull j ∈ taskBlock e i ↔ j = i := by
  cases e <;> simp [taskBlock]

theorem persist_mem_taskBlock (e : Bool) (i j : Nat) :
    Event.persist j ∈ taskBlock e i ↔ j = i := by
  cases e <;> simp [taskBlock]

theorem pull_mem_blockRange (ext : Nat → Bool) :
    ∀ k i j, Event.pull j ∈ blockRange ext i k ↔ (i ≤ j ∧ j < i + k) := by
  intro k
  induction k with
  | zero =>
    intro i j
    simp only [blockRange, List.not_mem_nil, false_iff]
    omega
  | succ k ih =>
    intro i j
    simp only [blockRange, List.mem_append, pull_mem_taskBlock, ih]
    omega

theorem persist_mem_blockRange (ext : Nat → Bool) :
    ∀ k i j, Event.persist j ∈ blockRange ext i k ↔ (i ≤ j ∧ j < i + k) := by
  intro k
  induction k with
  | zero =>
    intro i j
    simp only [blockRange, List.not_mem_nil, false_iff]
    omega
  | succ k ih =>
    intro i j
    simp only [blockRange, List.mem_append, persist_mem_taskBlock, ih]
    omega

theorem workerSigAux_eq_blockRange (ext : Nat → Bool) (sigAt : Nat) :
    ∀ n i, workerSigAux ext sigAt i n
      = blockRange ext i (min n (max (sigAt - i) 1)) := by
  intro n
  induction n with
  | zero =>
    intro i
    have h : min 0 (max (sigAt - i) 1) = 0 := by omega
    rw [h]
    rfl
  | succ n ih =>
    intro i
    by_cases h : sigAt ≤ i + 1
    · have hm : min (n + 1) (max (sigAt - i) 1) = 1 := by omega
      rw [hm]
      simp [workerSigAux, h, blockRange]
    · have hm : min (n + 1) (max (sigAt - i) 1)
          = min n (max (sigAt - (i + 1)) 1) + 1 := by omega
      rw [hm]
      simp only [workerSigAux, if_neg h, ih (i + 1)]
      rfl

theorem workerSig_eq_blockRange (ext : Nat → Bool) (sigAt n : Nat) :
    workerSig ext sigAt n = blockRange ext 0 (min n (max sigAt 1)) := by
  rw [workerSig, workerSigAux_eq_blockRange]
  norm_num

/-- C3 counterexample: the claim describes per-task slot acquisition from a
limiter sized by `max_concurrent_fetches` (default 10), with tasks running
independently of other in-flight tasks.  The embedded worker of `run`
(src/main.py) contains no limiter: under a burst of 11 synthetic tasks the
occupancy of the fetch→extract→persist sequence never exceeds 1 — it never
reaches the limiter ceiling that an independent-admission scheduler would
exhibit — in the trace of two tasks every event of task 0, including its
persist and completion log, precedes the pull of task 1, and the trace is
identical whether `max_concurrent_fetches` is 1 or 10 because the worker
never consults it. -/
theorem c3_limiter_counterexample :
    (occList 0 (blocksUpTo (fun _ => false) 11)).all (fun c => c ≤ 1) = true ∧
    blocksUpTo (fun _ => false) 2
      = [.pull 0, .fetchStart 0, .fetchDone 0, .persist 0, .logProcessed 0,
          .pull 1, .fetchStart 1, .fetchDone 1, .persist 1, .logProcessed 1] ∧
    workerTraceCfg { max_concurrent_fetches := 1 } (fun _ => false) 11
      = workerTraceCfg { max_concurrent_fetches := 10 } (fun _ => false) 11 := by
  refine ⟨by decide, by decide, rfl⟩

/-- C3 (amended): the Coordinator runs tasks strictly sequentially — each
task's fetch→(conditional) extract→persist block completes before the next
task is pulled, so the occupancy of the pipeline never exceeds 1 (hence
trivially never exceeds N); `Config.max_concurrent_fetches` defaults to 10
but is never consulted: the worker trace is the same for every loaded
config. -/
theorem c3_sequential_no_limiter (ext : Nat → Bool) (n : Nat) :
    (∀ c ∈ occList 0 (workerTraceCfg (Config.load {}) ext n), c ≤ 1) ∧
    occFold 0 (workerTraceCfg (Config.load {}) ext n) = 0 ∧
    (∀ cfg cfg' : Config, workerTraceCfg cfg ext n = workerTraceCfg cfg' ext n) ∧
    (Config.load {}).max_concurrent_fetches = 10 := by
  refine ⟨(occ_blocksUpTo ext n).2, (occ_blocksUpTo ext n).1, fun _ _ => rfl, rfl⟩

/-- Witness for C3 (amended) at a concrete trace element. -/
theorem c3_sequential_no_limiter_witness :
    (1 : Nat) ∈ occList 0 (workerTraceCfg (Config.load {}) (fun _ => false) 1) ∧
    (1 : Nat) ≤ 1 :=
  ⟨by decide,
    (c3_sequential_no_limiter (fun _ => false) 1).1 1 (by decide)⟩

/-- C4 counterexample: the claim says the Coordinator stops pulling new
tasks immediately on the shutdown signal.  The source checks
`shutdown_event` only at the bottom of the loop body, so a signal that is
already set before a pull does not prevent that pull: with the signal set
before the first iteration (`sigAt = 0`), task 0 is still pulled and fully
processed. -/
theorem c4_shutdown_counterexample :
    workerSig (fun _ => false) 0 1
      = [.pull 0, .fetchStart 0, .fetchDone 0, .persist 0, .logProcessed 0] ∧
    Event.pull 0 ∈ workerSig (fun _ => false) 0 1 := by
  refine ⟨by decide, by decide⟩

/-- C4 (amended): the shutdown signal is observed at the end-of-iteration
check: the worker processes exactly `min n (max sigAt 1)` tasks — after the
check first sees the signal no further task is pulled, but a signal arriving
before the next pull (including before the first) still lets that one task
through.  In-flight tasks are not cancelled: every pulled task also reaches
its persist step.  After the drain, `run`'s cleanup closes the stages in the
fixed source order Task Source, Fetch Stage, Persistence Stage, Extraction
Stage. -/
theorem c4_drain_and_close_order (ext : Nat → Bool) (sigAt n : Nat) :
    workerSig ext sigAt n = blockRange ext 0 (min n (max sigAt 1)) ∧
    (∀ j, Event.pull j ∈ workerSig ext sigAt n ↔ j < min n (max sigAt 1)) ∧
    (∀ j, Event.pull j ∈ workerSig ext sigAt n →
      Event.persist j ∈ workerSig ext sigAt n) ∧
    runTrace ext sigAt n
      = workerSig ext sigAt n
        ++ [Event.closeSource, Event.closeFetcher, Event.closeStore,
            Event.closeBrowser] := by
  refine ⟨workerSig_eq_blockRange ext sigAt n, ?_, ?_, rfl⟩
  · intro j
    rw [workerSig_eq_blockRange, pull_mem_blockRange]
    omega
  · intro j hj
    rw [workerSig_eq_blockRange, pull_mem_blockRange] at hj
    rw [workerSig_eq_blockRange, persist_mem_blockRange]
    exact hj

/-- Witness for C4 (amended): a signal arriving after the first iteration of
a three-task burst drains exactly that task, which also persists. -/
theorem c4_drain_and_close_order_witness :
    Event.pull 0 ∈ workerSig (fun _ => false) 1 3 ∧
    Event.persist 0 ∈ workerSig (fun _ => false) 1 3 ∧
    ¬ Event.pull 1 ∈ workerSig (fun _ => false) 1 3 :=
  ⟨by decide,
    (c4_drain_and_close_order (fun _ => false) 1 3).2.2.1 0 (by decide),
    fun hmem =>
      by simpa using ((c4_drain_and_close_order (fun _ => false) 1 3).2.1 1).mp hmem⟩

/-- C8: on the concrete scenario HTML the selector-based extraction returns
question "What is Python?" and answer "Python is a programming language.";
and for any HTML where a selector has no match, the corresponding field of
the (total, never-raising) extraction is `none`. -/
theorem c8_extraction :
    extract_question_answer c8InputHtml
      = ⟨some "What is Python?", some "Python is a programming language."⟩ ∧
    ∀ html : String,
      (selectForest questionSelTag questionSelClasses (parseHtml html) = none →
        (extract_question_answer html).question = none) ∧
      (selectForest answerSelTag answerSelClasses (parseHtml html) = none →
        (extract_question_answer html).answer = none) := by
  refine ⟨by decide, ?_⟩
  intro html
  constructor
  · intro hq
    simp [extract_question_answer, hq]
  · intro ha
    simp [extract_question_answer, ha]

/-- Witness for C8 on markup where neither selector matches. -/
theorem c8_extraction_witness :
    (extract_question_answer "<html><body>plain page</body></html>").question = none ∧
    (extract_question_answer "<html><body>plain page</body></html>").answer = none :=
  ⟨(c8_extraction.2 "<html><body>plain page</body></html>").1 (by decide),
    (c8_extraction.2 "<html><body>plain page</body></html>").2 (by decide)⟩

end Quorabroker
